import Mathlib

/-!
Verification of the conversation-session and message-reconciliation model of
the Genie chat client (`src/client/src/components/GenieChat.tsx`).

The component keeps five pieces of React state: the ordered message list
(seeded with one synthetic welcome message), the current input string, the
`isLoading` flag, the nullable conversation identifier, and the nullable
session error.  The only mutating operation is `sendMessage`, which we embed
as a pure function from the pre-call state and the outcome of the single
`fetch` call to the post-resolution state, together with the outbound request
it issued (if any).
-/

namespace GenieChat

/-- `message.sender` in the source: `'user' | 'assistant'`. -/
inductive Sender where
  | user
  | assistant
deriving DecidableEq, Repr

/-- `message.status` in the source: `'sending' | 'sent' | 'error'`. -/
inductive Status where
  | sending
  | sent
  | error
deriving DecidableEq, Repr

/-- The tabular result payload (`query_results` in the response JSON):
`columns` (ordered list of column names), `data` (ordered list of rows),
`row_count` (the reported total).  Scalar cell values are modelled as
strings, since the rendering stringifies them. -/
structure QueryResults where
  columns : List String
  data : List (List String)
  row_count : Nat
deriving DecidableEq, Repr

/-- The `Message` interface of GenieChat.tsx: `id`, `content`, `sender`,
`timestamp`, optional `status`, optional `sql`, optional `results`.
Timestamps are modelled as opaque strings. -/
structure Message where
  id : String
  content : String
  sender : Sender
  timestamp : String
  status : Option Status
  sql : Option String
  results : Option QueryResults
deriving DecidableEq, Repr

/-- The body of a successful relay response: `content` is required, all
other fields are optional in the source (`data.message_id || ...`,
`data.conversation_id`, `data.sql_query`, `data.query_results`). -/
structure ResponseData where
  conversation_id : Option String
  message_id : Option String
  content : String
  timestamp : String
  sql_query : Option String
  query_results : Option QueryResults
deriving DecidableEq, Repr

/-- How the single `fetch` in `sendMessage` resolves: a 2xx response with a
parsed JSON body, a non-2xx response whose body optionally carries a
`detail` string, or a transport error whose `Error` object optionally
carries a message. -/
inductive FetchOutcome where
  | ok (data : ResponseData)
  | httpError (detail : Option String)
  | transportError (message : Option String)
deriving DecidableEq, Repr

/-- The JSON body of the outbound POST to `/api/genie/send-message`:
`{content, conversation_id}`. -/
structure OutboundRequest where
  content : String
  conversation_id : Option String
deriving DecidableEq, Repr

/-- The React state of the component: `messages`, `input`, `isLoading`,
`conversationId`, `error`.  (The SQL-visibility set and the scroll ref are
pure presentation and are not modelled.) -/
structure ChatState where
  messages : List Message
  input : String
  isLoading : Bool
  conversationId : Option String
  error : Option String
deriving DecidableEq, Repr

/-- JavaScript `String.prototype.trim()`: removes leading and trailing
whitespace, embedded structurally over the character list so that it is
kernel-computable. -/
def jsTrim (s : String) : String :=
  String.mk (((s.data.dropWhile Char.isWhitespace).reverse.dropWhile
    Char.isWhitespace).reverse)

/-- JavaScript falsiness of a nullable string: `null`/`undefined` and the
empty string are falsy. -/
def jsFalsy : Option String → Bool
  | none => true
  | some s => s == ""

/-- JavaScript `x || d` on a nullable string: yields `d` when `x` is
null/undefined or empty, otherwise `x`. -/
def jsOrStr (o : Option String) (dflt : String) : String :=
  match o with
  | some s => if s = "" then dflt else s
  | none => dflt

/-- The synthetic welcome message seeded into the message list at component
creation (`useState<Message[]>([{ id: '1', ... }])`).  Its timestamp is
`new Date()` at mount time, abstracted as the parameter `t0`. -/
def initMessage (t0 : String) : Message :=
  { id := "1"
    content := "Hello! I\x27m your Databricks Genie assistant. I can help you analyze data, write SQL queries, and provide insights. How can I help you today?"
    sender := Sender.assistant
    timestamp := t0
    status := none
    sql := none
    results := none }

/-- The initial React state of the component. -/
def initState (t0 : String) : ChatState :=
  { messages := [initMessage t0]
    input := ""
    isLoading := false
    conversationId := none
    error := none }

/-- The `sendMessage` handler, from the guard through the resolution of the
`fetch` promise.  `newId` abstracts `Date.now().toString()` for the user
message, `now` the user message timestamp, `fallbackId` the second
`Date.now().toString()` used when the response has no `message_id`.
Returns the post-resolution state and the outbound request, `none` when the
guard returned before issuing any call. -/
def sendMessage (s : ChatState) (newId now fallbackId : String)
    (outcome : FetchOutcome) : ChatState × Option OutboundRequest :=
  if jsTrim s.input = "" ∨ s.isLoading = true then
    (s, none)
  else
    let userMessage : Message :=
      { id := newId
        content := jsTrim s.input
        sender := Sender.user
        timestamp := now
        status := some Status.sending
        sql := none
        results := none }
    let pending : ChatState :=
      { s with
        messages := s.messages ++ [userMessage]
        input := ""
        isLoading := true
        error := none }
    let req : OutboundRequest :=
      { content := userMessage.content, conversation_id := s.conversationId }
    match outcome with
    | FetchOutcome.ok data =>
        let convId : Option String :=
          if jsFalsy s.conversationId && !(jsFalsy data.conversation_id) then
            data.conversation_id
          else s.conversationId
        let assistantMessage : Message :=
          { id := jsOrStr data.message_id fallbackId
            content := data.content
            sender := Sender.assistant
            timestamp := data.timestamp
            status := none
            sql := data.sql_query
            results := data.query_results }
        ({ pending with
            messages := pending.messages.dropLast ++
              [{ userMessage with status := some Status.sent }, assistantMessage]
            conversationId := convId
            isLoading := false },
         some req)
    | FetchOutcome.httpError detail =>
        ({ pending with
            messages := pending.messages.dropLast ++
              [{ userMessage with status := some Status.error }]
            error := some (jsOrStr detail "Failed to send message")
            isLoading := false },
         some req)
    | FetchOutcome.transportError msg =>
        ({ pending with
            messages := pending.messages.dropLast ++
              [{ userMessage with status := some Status.error }]
            error := some (jsOrStr msg "Failed to send message")
            isLoading := false },
         some req)

/-- Whether the outcome is a failure (non-2xx response or transport error). -/
def FetchOutcome.isFailure : FetchOutcome → Bool
  | FetchOutcome.ok _ => false
  | FetchOutcome.httpError _ => true
  | FetchOutcome.transportError _ => true

/-- One user interaction: type `input` into the text box, then trigger
`sendMessage`, which resolves with `outcome`. -/
structure Event where
  input : String
  newId : String
  now : String
  fallbackId : String
  outcome : FetchOutcome
deriving Repr

/-- Apply one interaction to the state. -/
def step (s : ChatState) (e : Event) : ChatState × Option OutboundRequest :=
  sendMessage { s with input := e.input } e.newId e.now e.fallbackId e.outcome

/-- Run a sequence of interactions from the freshly mounted component. -/
def runTrace (t0 : String) (es : List Event) : ChatState :=
  es.foldl (fun s e => (step s e).1) (initState t0)

/-- A concrete pre-call state used to instantiate the claim theorems. -/
def wState : ChatState :=
  { messages := [initMessage "t0"]
    input := " What tables are available? "
    isLoading := false
    conversationId := none
    error := none }

/-- A concrete successful relay response used to instantiate the claim
theorems. -/
def wData : ResponseData :=
  { conversation_id := some "abc123"
    message_id := some "m1"
    content := "Here are your tables"
    timestamp := "2024-01-01T00:00:00Z"
    sql_query := some "SHOW TABLES"
    query_results := some { columns := ["name"], data := [["orders"], ["users"]],
                            row_count := 2 } }

/-- The rows the result table actually renders:
`message.results.data.slice(0, 10)`. -/
def renderedRows (r : QueryResults) : List (List String) :=
  r.data.take 10

/-- Whether the truncation note is rendered:
`message.results.data.length > 10`. -/
def showsTruncationNote (r : QueryResults) : Bool :=
  decide (10 < r.data.length)

/-- The truncation note text:
`Showing first 10 rows of {message.results.row_count} total`. -/
def truncationNote (r : QueryResults) : String :=
  "Showing first 10 rows of " ++ toString r.row_count ++ " total"

/-- The row count shown in the results header: `message.results.row_count`. -/
def displayedRowCount (r : QueryResults) : Nat :=
  r.row_count

/-- A concrete 15-row result payload. -/
def w15 : QueryResults :=
  { columns := ["n"]
    data := (List.range 15).map (fun i => [toString i])
    row_count := 15 }

/-- Invariant: a non-null conversation identifier is never the empty
string (it is only ever adopted from a truthy response field). -/
def convInv (s : ChatState) : Prop :=
  ∀ c, s.conversationId = some c → c ≠ ""

theorem dropLast_append_single {α : Type} (l : List α) (a : α) :
    (l ++ [a]).dropLast = l := by
  simp

/-- Characterization of an accepted submission that resolves successfully:
the full post-state and the outbound request. -/
theorem sendMessage_ok (s : ChatState) (newId now fallbackId : String)
    (data : ResponseData) (hin : jsTrim s.input ≠ "")
    (hload : s.isLoading = false) :
    sendMessage s newId now fallbackId (FetchOutcome.ok data)
      = ({ messages := s.messages ++
            [{ id := newId, content := jsTrim s.input, sender := Sender.user,
               timestamp := now, status := some Status.sent, sql := none,
               results := none },
             { id := jsOrStr data.message_id fallbackId, content := data.content,
               sender := Sender.assistant, timestamp := data.timestamp,
               status := none, sql := data.sql_query,
               results := data.query_results }],
           input := "",
           isLoading := false,
           conversationId :=
             if jsFalsy s.conversationId && !(jsFalsy data.conversation_id) then
               data.conversation_id
             else s.conversationId,
           error := none },
         some { content := jsTrim s.input, conversation_id := s.conversationId }) := by
  simp [sendMessage, hin, hload]

/-- Characterization of an accepted submission that fails with a non-2xx
response carrying optional `detail`. -/
theorem sendMessage_httpError (s : ChatState) (newId now fallbackId : String)
    (detail : Option String) (hin : jsTrim s.input ≠ "")
    (hload : s.isLoading = false) :
    sendMessage s newId now fallbackId (FetchOutcome.httpError detail)
      = ({ messages := s.messages ++
            [{ id := newId, content := jsTrim s.input, sender := Sender.user,
               timestamp := now, status := some Status.error, sql := none,
               results := none }],
           input := "",
           isLoading := false,
           conversationId := s.conversationId,
           error := some (jsOrStr detail "Failed to send message") },
         some { content := jsTrim s.input, conversation_id := s.conversationId }) := by
  simp [sendMessage, hin, hload]

/-- Characterization of an accepted submission that fails with a transport
error carrying an optional message. -/
theorem sendMessage_transportError (s : ChatState) (newId now fallbackId : String)
    (msg : Option String) (hin : jsTrim s.input ≠ "")
    (hload : s.isLoading = false) :
    sendMessage s newId now fallbackId (FetchOutcome.transportError msg)
      = ({ messages := s.messages ++
            [{ id := newId, content := jsTrim s.input, sender := Sender.user,
               timestamp := now, status := some Status.error, sql := none,
               results := none }],
           input := "",
           isLoading := false,
           conversationId := s.conversationId,
           error := some (jsOrStr msg "Failed to send message") },
         some { content := jsTrim s.input, conversation_id := s.conversationId }) := by
  simp [sendMessage, hin, hload]

/-- C6: while an exchange is pending (`isLoading` true), any further
`sendMessage` call returns at the guard: it appends no message, issues no
outbound request, and leaves every field of the session state unchanged. -/
theorem pending_submit_noop (s : ChatState) (newId now fallbackId : String)
    (outcome : FetchOutcome) (h : s.isLoading = true) :
    sendMessage s newId now fallbackId outcome = (s, none) := by
  simp [sendMessage, h]

/-- C6 witness: a concrete state with an exchange pending is left unchanged
with no outbound call. -/
theorem pending_submit_noop_witness :
    sendMessage
      { messages := [initMessage "t0"], input := "hello", isLoading := true,
        conversationId := some "abc123", error := none }
      "2" "t1" "f1" (FetchOutcome.httpError none)
      = ({ messages := [initMessage "t0"], input := "hello", isLoading := true,
           conversationId := some "abc123", error := none }, none) :=
  pending_submit_noop
    { messages := [initMessage "t0"], input := "hello", isLoading := true,
      conversationId := some "abc123", error := none }
    "2" "t1" "f1" (FetchOutcome.httpError none) rfl

/-- C7: for every input that trims to the empty string, `sendMessage`
returns at the guard: the message sequence and all other session state are
unchanged and no outbound request is issued. -/
theorem empty_input_noop (s : ChatState) (newId now fallbackId : String)
    (outcome : FetchOutcome) (h : jsTrim s.input = "") :
    sendMessage s newId now fallbackId outcome = (s, none) := by
  simp [sendMessage, h]

/-- C1: every accepted submission (non-empty trimmed input, no exchange
pending) appends exactly one user-originated message right after the
unchanged prior sequence, and after the exchange resolves that message's
status is terminal (`sent` or `error`), never `sending`; any further
appended messages are assistant-originated. -/
theorem submit_appends_one_user_terminal (s : ChatState)
    (newId now fallbackId : String) (outcome : FetchOutcome)
    (hin : jsTrim s.input ≠ "") (hload : s.isLoading = false) :
    ∃ u tail,
      ((sendMessage s newId now fallbackId outcome).1).messages
        = s.messages ++ (u :: tail)
      ∧ u.sender = Sender.user
      ∧ (u.status = some Status.sent ∨ u.status = some Status.error)
      ∧ u.status ≠ some Status.sending
      ∧ ∀ m ∈ tail, m.sender = Sender.assistant := by
  cases outcome with
  | ok data =>
      rw [sendMessage_ok s newId now fallbackId data hin hload]
      exact ⟨_, _, rfl, rfl, Or.inl rfl, by simp, by simp⟩
  | httpError detail =>
      rw [sendMessage_httpError s newId now fallbackId detail hin hload]
      exact ⟨_, [], rfl, rfl, Or.inr rfl, by simp, by simp⟩
  | transportError msg =>
      rw [sendMessage_transportError s newId now fallbackId msg hin hload]
      exact ⟨_, [], rfl, rfl, Or.inr rfl, by simp, by simp⟩

/-- C1 witness: instantiated at a concrete state and a concrete failing
outcome. -/
theorem submit_appends_one_user_terminal_witness :
    ∃ u tail,
      ((sendMessage wState "2" "t1" "f1"
          (FetchOutcome.transportError none)).1).messages
        = wState.messages ++ (u :: tail)
      ∧ u.sender = Sender.user
      ∧ (u.status = some Status.sent ∨ u.status = some Status.error)
      ∧ u.status ≠ some Status.sending
      ∧ ∀ m ∈ tail, m.sender = Sender.assistant :=
  submit_appends_one_user_terminal wState "2" "t1" "f1"
    (FetchOutcome.transportError none) (by decide) rfl

/-- C2: on a successful exchange the resulting message sequence is the
unchanged prior sequence, then the pending user message with status
replaced by `sent`, then exactly one new assistant message whose content,
generated-query text and result payload come from the response. -/
theorem submit_success_reconciliation (s : ChatState)
    (newId now fallbackId : String) (data : ResponseData)
    (hin : jsTrim s.input ≠ "") (hload : s.isLoading = false) :
    ((sendMessage s newId now fallbackId (FetchOutcome.ok data)).1).messages
      = s.messages ++
        [{ id := newId, content := jsTrim s.input, sender := Sender.user,
           timestamp := now, status := some Status.sent, sql := none,
           results := none },
         { id := jsOrStr data.message_id fallbackId, content := data.content,
           sender := Sender.assistant, timestamp := data.timestamp,
           status := none, sql := data.sql_query,
           results := data.query_results }] := by
  rw [sendMessage_ok s newId now fallbackId data hin hload]

/-- C2 witness: instantiated at a concrete state and response. -/
theorem submit_success_reconciliation_witness :
    ((sendMessage wState "2" "t1" "f1" (FetchOutcome.ok wData)).1).messages
      = wState.messages ++
        [{ id := "2", content := jsTrim wState.input, sender := Sender.user,
           timestamp := "t1", status := some Status.sent, sql := none,
           results := none },
         { id := jsOrStr wData.message_id "f1", content := wData.content,
           sender := Sender.assistant, timestamp := wData.timestamp,
           status := none, sql := wData.sql_query,
           results := wData.query_results }] :=
  submit_success_reconciliation wState "2" "t1" "f1" wData (by decide) rfl

/-- C3: on a failed exchange (non-2xx response or transport error) the
pending user message's status becomes `error`, no assistant message is
appended (the sequence is exactly the prior one plus that single user
message), and the conversation identifier is unchanged. -/
theorem submit_failure_reconciliation (s : ChatState)
    (newId now fallbackId : String) (outcome : FetchOutcome)
    (hin : jsTrim s.input ≠ "") (hload : s.isLoading = false)
    (hfail : outcome.isFailure = true) :
    ((sendMessage s newId now fallbackId outcome).1).messages
      = s.messages ++
        [{ id := newId, content := jsTrim s.input, sender := Sender.user,
           timestamp := now, status := some Status.error, sql := none,
           results := none }]
    ∧ ((sendMessage s newId now fallbackId outcome).1).conversationId
        = s.conversationId := by
  cases outcome with
  | ok data => simp [FetchOutcome.isFailure] at hfail
  | httpError detail =>
      rw [sendMessage_httpError s newId now fallbackId detail hin hload]
      exact ⟨rfl, rfl⟩
  | transportError msg =>
      rw [sendMessage_transportError s newId now fallbackId msg hin hload]
      exact ⟨rfl, rfl⟩

/-- C3 witness: instantiated at a concrete state that already adopted a
conversation identifier and a concrete HTTP failure. -/
theorem submit_failure_reconciliation_witness :
    ((sendMessage
        { messages := [initMessage "t0"], input := "more", isLoading := false,
          conversationId := some "abc123", error := none }
        "2" "t1" "f1" (FetchOutcome.httpError (some "boom"))).1).messages
      = [initMessage "t0"] ++
        [{ id := "2", content := jsTrim "more", sender := Sender.user,
           timestamp := "t1", status := some Status.error, sql := none,
           results := none }]
    ∧ ((sendMessage
          { messages := [initMessage "t0"], input := "more", isLoading := false,
            conversationId := some "abc123", error := none }
          "2" "t1" "f1" (FetchOutcome.httpError (some "boom"))).1).conversationId
        = some "abc123" :=
  submit_failure_reconciliation
    { messages := [initMessage "t0"], input := "more", isLoading := false,
      conversationId := some "abc123", error := none }
    "2" "t1" "f1" (FetchOutcome.httpError (some "boom")) (by decide) rfl rfl

/-- C4: on a failed exchange the session error is the `detail` carried by
the response when there is one, and the generic message otherwise; a
status-500 response with body detail "token expired" yields session error
exactly "token expired". -/
theorem submit_failure_error_detail (s : ChatState)
    (newId now fallbackId : String)
    (hin : jsTrim s.input ≠ "") (hload : s.isLoading = false) :
    (∀ d : String, d ≠ "" →
      ((sendMessage s newId now fallbackId
          (FetchOutcome.httpError (some d))).1).error = some d)
    ∧ ((sendMessage s newId now fallbackId
          (FetchOutcome.httpError none)).1).error
        = some "Failed to send message"
    ∧ ((sendMessage s newId now fallbackId
          (FetchOutcome.httpError (some "token expired"))).1).error
        = some "token expired" := by
  refine ⟨fun d hd => ?_, ?_, ?_⟩
  · rw [sendMessage_httpError s newId now fallbackId (some d) hin hload]
    simp [jsOrStr, hd]
  · rw [sendMessage_httpError s newId now fallbackId none hin hload]
    simp [jsOrStr]
  · rw [sendMessage_httpError s newId now fallbackId (some "token expired")
      hin hload]
    simp [jsOrStr]

/-- C4 witness: instantiated at a concrete state. -/
theorem submit_failure_error_detail_witness :
    ((sendMessage wState "2" "t1" "f1"
        (FetchOutcome.httpError (some "token expired"))).1).error
      = some "token expired" :=
  (submit_failure_error_detail wState "2" "t1" "f1" (by decide) rfl).2.2

/-- C9: for every accepted submission, the content stored in the appended
user message and the content of the outbound request body both equal the
trimmed input. -/
theorem submitted_content_trimmed (s : ChatState)
    (newId now fallbackId : String) (outcome : FetchOutcome)
    (hin : jsTrim s.input ≠ "") (hload : s.isLoading = false) :
    (∃ u tail,
      ((sendMessage s newId now fallbackId outcome).1).messages
        = s.messages ++ (u :: tail)
      ∧ u.sender = Sender.user
      ∧ u.content = jsTrim s.input)
    ∧ (sendMessage s newId now fallbackId outcome).2
        = some { content := jsTrim s.input,
                 conversation_id := s.conversationId } := by
  cases outcome with
  | ok data =>
      rw [sendMessage_ok s newId now fallbackId data hin hload]
      exact ⟨⟨_, _, rfl, rfl, rfl⟩, rfl⟩
  | httpError detail =>
      rw [sendMessage_httpError s newId now fallbackId detail hin hload]
      exact ⟨⟨_, [], rfl, rfl, rfl⟩, rfl⟩
  | transportError msg =>
      rw [sendMessage_transportError s newId now fallbackId msg hin hload]
      exact ⟨⟨_, [], rfl, rfl, rfl⟩, rfl⟩

/-- C9 witness: instantiated at a concrete state whose input carries
surrounding whitespace. -/
theorem submitted_content_trimmed_witness :
    (∃ u tail,
      ((sendMessage wState "2" "t1" "f1" (FetchOutcome.ok wData)).1).messages
        = wState.messages ++ (u :: tail)
      ∧ u.sender = Sender.user
      ∧ u.content = jsTrim wState.input)
    ∧ (sendMessage wState "2" "t1" "f1" (FetchOutcome.ok wData)).2
        = some { content := jsTrim wState.input,
                 conversation_id := wState.conversationId } :=
  submitted_content_trimmed wState "2" "t1" "f1" (FetchOutcome.ok wData)
    (by decide) rfl

/-- C7 witness: submitting a whitespace-only input leaves a concrete state
unchanged with no outbound call. -/
theorem empty_input_noop_witness :
    sendMessage
      { messages := [initMessage "t0"], input := "   ", isLoading := false,
        conversationId := none, error := none }
      "2" "t1" "f1" (FetchOutcome.httpError none)
      = ({ messages := [initMessage "t0"], input := "   ", isLoading := false,
           conversationId := none, error := none }, none) :=
  empty_input_noop
    { messages := [initMessage "t0"], input := "   ", isLoading := false,
      conversationId := none, error := none }
    "2" "t1" "f1" (FetchOutcome.httpError none) (by decide)

/-- The guard at the top of `sendMessage`: an empty trimmed input or a
pending exchange returns immediately with the state unchanged and no
outbound request. -/
theorem sendMessage_guard_noop (s : ChatState) (newId now fallbackId : String)
    (outcome : FetchOutcome)
    (hg : jsTrim s.input = "" ∨ s.isLoading = true) :
    sendMessage s newId now fallbackId outcome = (s, none) := by
  simp [sendMessage, hg]

/-- `sendMessage` preserves the non-empty-identifier invariant: an adopted
identifier comes from a truthy (hence non-empty) response field. -/
theorem sendMessage_convInv (s : ChatState) (newId now fallbackId : String)
    (outcome : FetchOutcome) (h : convInv s) :
    convInv ((sendMessage s newId now fallbackId outcome).1) := by
  by_cases hg : jsTrim s.input = "" ∨ s.isLoading = true
  · simpa [sendMessage, hg] using h
  · cases outcome with
    | ok data =>
        intro c hc
        simp only [sendMessage, if_neg hg] at hc
        split at hc
        · rename_i hcond
          have h2 := (Bool.and_eq_true _ _).mp hcond |>.2
          rw [hc] at h2
          simpa [jsFalsy] using h2
        · exact h c hc
    | httpError detail =>
        intro c hc
        simp only [sendMessage, if_neg hg] at hc
        exact h c hc
    | transportError msg =>
        intro c hc
        simp only [sendMessage, if_neg hg] at hc
        exact h c hc

/-- A non-empty conversation identifier is never changed by `sendMessage`,
whatever the outcome. -/
theorem sendMessage_conv_stable (s : ChatState) (newId now fallbackId : String)
    (outcome : FetchOutcome) (c : String) (hne : c ≠ "")
    (hc : s.conversationId = some c) :
    ((sendMessage s newId now fallbackId outcome).1).conversationId = some c := by
  by_cases hg : jsTrim s.input = "" ∨ s.isLoading = true
  · simp [sendMessage, hg, hc]
  · cases outcome with
    | ok data => simp [sendMessage, if_neg hg, hc, jsFalsy, hne]
    | httpError detail => simp [sendMessage, if_neg hg, hc]
    | transportError msg => simp [sendMessage, if_neg hg, hc]

/-- Whenever `sendMessage` issues an outbound request, that request carries
the pre-call conversation identifier. -/
theorem sendMessage_req_conv (s : ChatState) (newId now fallbackId : String)
    (outcome : FetchOutcome) (r : OutboundRequest)
    (h : (sendMessage s newId now fallbackId outcome).2 = some r) :
    r.conversation_id = s.conversationId := by
  by_cases hg : jsTrim s.input = "" ∨ s.isLoading = true
  · simp [sendMessage, hg] at h
  · cases outcome with
    | ok data =>
        simp only [sendMessage, if_neg hg, Option.some.injEq] at h
        rw [← h]
    | httpError detail =>
        simp only [sendMessage, if_neg hg, Option.some.injEq] at h
        rw [← h]
    | transportError msg =>
        simp only [sendMessage, if_neg hg, Option.some.injEq] at h
        rw [← h]

/-- A conversation identifier that goes from null to non-null in one
`sendMessage` call can only have been adopted from a successful response
that carried it. -/
theorem sendMessage_conv_new (s : ChatState) (newId now fallbackId : String)
    (outcome : FetchOutcome) (c : String) (hn : s.conversationId = none)
    (hs : ((sendMessage s newId now fallbackId outcome).1).conversationId
            = some c) :
    ∃ d, outcome = FetchOutcome.ok d ∧ d.conversation_id = some c := by
  by_cases hg : jsTrim s.input = "" ∨ s.isLoading = true
  · rw [sendMessage_guard_noop s newId now fallbackId outcome hg] at hs
    rw [hn] at hs
    exact absurd hs (by simp)
  · cases outcome with
    | ok data =>
        refine ⟨data, rfl, ?_⟩
        simp only [sendMessage, if_neg hg] at hs
        split at hs
        · exact hs
        · rw [hn] at hs; exact absurd hs (by simp)
    | httpError detail =>
        simp only [sendMessage, if_neg hg] at hs
        rw [hn] at hs
        exact absurd hs (by simp)
    | transportError msg =>
        simp only [sendMessage, if_neg hg] at hs
        rw [hn] at hs
        exact absurd hs (by simp)

/-- An accepted submission from a session with no conversation identifier
whose outcome is a success carrying a truthy identifier adopts that
identifier. -/
theorem sendMessage_adopts (s : ChatState) (newId now fallbackId : String)
    (data : ResponseData) (hin : jsTrim s.input ≠ "")
    (hload : s.isLoading = false) (hn : s.conversationId = none)
    (hd : jsFalsy data.conversation_id = false) :
    ((sendMessage s newId now fallbackId
        (FetchOutcome.ok data)).1).conversationId = data.conversation_id := by
  rw [sendMessage_ok s newId now fallbackId data hin hload]
  have h1 : jsFalsy (none : Option String) = true := rfl
  simp [hn, h1, hd]

/-- `sendMessage` leaves `isLoading` false: the guard returns with it
unchanged, and every resolution path of the exchange resets it (`finally`). -/
theorem sendMessage_isLoading (s : ChatState) (newId now fallbackId : String)
    (outcome : FetchOutcome) (h : s.isLoading = false) :
    ((sendMessage s newId now fallbackId outcome).1).isLoading = false := by
  by_cases hg : jsTrim s.input = "" ∨ s.isLoading = true
  · simp [sendMessage_guard_noop s newId now fallbackId outcome hg, h]
  · cases outcome <;> simp [sendMessage, if_neg hg]

/-- Every state reached by a trace of interactions has no exchange
pending: each interaction's exchange has resolved. -/
theorem runTrace_isLoading (t0 : String) (es : List Event) :
    (runTrace t0 es).isLoading = false := by
  suffices h : ∀ s : ChatState, s.isLoading = false →
      (es.foldl (fun s e => (step s e).1) s).isLoading = false by
    exact h (initState t0) rfl
  induction es with
  | nil => exact fun s hs => hs
  | cons e es ih =>
      intro s hs
      exact ih _ (sendMessage_isLoading _ _ _ _ _ hs)

/-- Every state reached by a trace of interactions satisfies the
non-empty-identifier invariant. -/
theorem runTrace_convInv (t0 : String) (es : List Event) :
    convInv (runTrace t0 es) := by
  suffices h : ∀ s : ChatState, convInv s →
      convInv (es.foldl (fun s e => (step s e).1) s) by
    refine h (initState t0) ?_
    intro c hc
    simp [initState] at hc
  induction es with
  | nil => exact fun s hs => hs
  | cons e es ih =>
      intro s hs
      exact ih _ (sendMessage_convInv _ _ _ _ _ (fun c hc => hs c hc))

/-- C5: the conversation identifier of a freshly mounted session is null;
an accepted submission from a session whose identifier is still null, whose
exchange succeeds with a response carrying a (truthy) identifier, adopts
exactly that identifier; once a trace has produced a non-null identifier,
any further interaction leaves it unchanged and any outbound request it
issues carries exactly that identifier; and the identifier can only ever
become non-null through a successful exchange whose response carries it. -/
theorem conversation_id_lifecycle (t0 : String) (es : List Event) :
    (runTrace t0 []).conversationId = none
    ∧ (∀ e d, (runTrace t0 es).conversationId = none →
        jsTrim e.input ≠ "" →
        e.outcome = FetchOutcome.ok d →
        jsFalsy d.conversation_id = false →
        ((step (runTrace t0 es) e).1).conversationId = d.conversation_id)
    ∧ (∀ e c, (runTrace t0 es).conversationId = some c →
        ((step (runTrace t0 es) e).1).conversationId = some c
        ∧ ∀ r, (step (runTrace t0 es) e).2 = some r →
            r.conversation_id = some c)
    ∧ (∀ e c, (runTrace t0 es).conversationId = none →
        ((step (runTrace t0 es) e).1).conversationId = some c →
        ∃ d, e.outcome = FetchOutcome.ok d ∧ d.conversation_id = some c) := by
  refine ⟨by simp [runTrace, initState], fun e d hn hin hok hd => ?_,
    fun e c hc => ?_, fun e c hn hs => ?_⟩
  · simp only [step]
    rw [hok]
    refine sendMessage_adopts _ e.newId e.now e.fallbackId d hin ?_ ?_ hd
    · exact runTrace_isLoading t0 es
    · exact hn
  · have hne : c ≠ "" := runTrace_convInv t0 es c hc
    constructor
    · exact sendMessage_conv_stable _ _ _ _ _ c hne hc
    · intro r hr
      rw [sendMessage_req_conv _ _ _ _ _ r hr]
      exact hc
  · simp only [step] at hs
    refine sendMessage_conv_new _ e.newId e.now e.fallbackId e.outcome c ?_ hs
    exact hn

/-- `sendMessage` preserves the head of the message list. -/
theorem sendMessage_head (s : ChatState) (newId now fallbackId : String)
    (outcome : FetchOutcome) (m : Message) (h : s.messages.head? = some m) :
    ((sendMessage s newId now fallbackId outcome).1).messages.head?
      = some m := by
  by_cases hg : jsTrim s.input = "" ∨ s.isLoading = true
  · simp [sendMessage, hg, h]
  · push_neg at hg
    obtain ⟨hin, hload⟩ := hg
    have hload' : s.isLoading = false := by
      simpa using hload
    obtain ⟨l, hl⟩ : ∃ l, s.messages = m :: l := by
      cases hm : s.messages with
      | nil => rw [hm] at h; simp at h
      | cons a l =>
          rw [hm] at h
          simp only [List.head?_cons, Option.some.injEq] at h
          exact ⟨l, by rw [h]⟩
    cases outcome with
    | ok data =>
        rw [sendMessage_ok s newId now fallbackId data hin hload', hl,
          List.cons_append]
        rfl
    | httpError detail =>
        rw [sendMessage_httpError s newId now fallbackId detail hin hload', hl,
          List.cons_append]
        rfl
    | transportError msg =>
        rw [sendMessage_transportError s newId now fallbackId msg hin hload', hl,
          List.cons_append]
        rfl

/-- C10: after every trace of interactions, whether the exchanges succeed
or fail, the synthetic welcome message seeded at session creation is still
the first element of the message sequence, unmodified. -/
theorem welcome_message_first (t0 : String) (es : List Event) :
    (runTrace t0 es).messages.head? = some (initMessage t0) := by
  suffices h : ∀ s : ChatState, s.messages.head? = some (initMessage t0) →
      (es.foldl (fun s e => (step s e).1) s).messages.head?
        = some (initMessage t0) by
    refine h (initState t0) ?_
    simp [initState]
  induction es with
  | nil => exact fun s hs => hs
  | cons e es ih =>
      intro s hs
      exact ih _ (sendMessage_head _ _ _ _ _ _ hs)

/-- C8: the result table renders exactly the first 10 rows of the payload's
data list (all of them when there are 10 or fewer), the truncation note
appears exactly when the payload has more than 10 rows, and the displayed
row count is the payload's own `row_count` total. -/
theorem results_rendering_truncation (r : QueryResults) :
    (renderedRows r).length = min 10 r.data.length
    ∧ (∃ rest, r.data = renderedRows r ++ rest
        ∧ rest.length = r.data.length - 10)
    ∧ (showsTruncationNote r = true ↔ 10 < r.data.length)
    ∧ (showsTruncationNote r = false ↔ r.data.length ≤ 10)
    ∧ (renderedRows r = r.data ↔ r.data.length ≤ 10)
    ∧ displayedRowCount r = r.row_count
    ∧ truncationNote r
        = "Showing first 10 rows of " ++ toString r.row_count ++ " total" := by
  refine ⟨List.length_take 10 r.data,
    ⟨r.data.drop 10, (List.take_append_drop 10 r.data).symm,
      List.length_drop 10 r.data⟩, ?_, ?_, ?_, rfl, rfl⟩
  · simp [showsTruncationNote]
  · simp [showsTruncationNote]
  · constructor
    · intro h
      have := congrArg List.length h
      rw [renderedRows, List.length_take] at this
      omega
    · intro h
      simpa [renderedRows] using List.take_of_length_le h

/-- C8 witness: a concrete payload with 15 rows renders its first 10 rows,
shows the truncation note, and still displays the true total of 15. -/
theorem results_rendering_truncation_witness :
    (renderedRows w15).length = min 10 w15.data.length
    ∧ (∃ rest, w15.data = renderedRows w15 ++ rest
        ∧ rest.length = w15.data.length - 10)
    ∧ (showsTruncationNote w15 = true ↔ 10 < w15.data.length)
    ∧ (showsTruncationNote w15 = false ↔ w15.data.length ≤ 10)
    ∧ (renderedRows w15 = w15.data ↔ w15.data.length ≤ 10)
    ∧ displayedRowCount w15 = w15.row_count
    ∧ truncationNote w15
        = "Showing first 10 rows of " ++ toString w15.row_count ++ " total" :=
  results_rendering_truncation w15

end GenieChat
